import Mathlib

/- Shallow embedding of the Motus data-collection repository.

   Source files embedded:
   - src/data_collection/face/face1.py: face-orientation estimation
     (calculate_face_orientation), temporal smoothing (apply_moving_average),
     the calibration sampling loop (calibrate_face_orientation) and the
     sample-gate logging policy of main().
   - src/data_collection/leg/capture2.py: the serial line demultiplexer in
     main().

   Modelling conventions:
   - Python floats are modelled as real numbers (ℝ); numpy integer landmark
     coordinates as ℤ.
   - np.linalg.norm of a 2D integer vector is the Euclidean norm (euclid).
   - A Python function returning None on failure is modelled with Option.
   - The camera (cap.read / detector / predictor) is modelled by an abstract
     list of Frame values: a read failure (ret == False), a frame with no
     detected face, or a frame whose first face has a given landmark list.
   - Python lists mutated in place (orientation history, calibration
     accumulators) are modelled by explicit state passing.
-/

/-- A 2D landmark point with integer pixel coordinates, one row of the array
produced by shape_to_np. -/
abbrev Landmark := ℤ × ℤ

/-- np.linalg.norm (p - q) for 2D integer points: the Euclidean distance. -/
noncomputable def euclid (p q : Landmark) : ℝ :=
  Real.sqrt (((p.1 - q.1 : ℤ) : ℝ) ^ 2 + ((p.2 - q.2 : ℤ) : ℝ) ^ 2)

/-- landmarks_np[0], the left side of the face. -/
def left_face (lm : List Landmark) : Landmark := lm.getD 0 (0, 0)

/-- landmarks_np[16], the right side of the face. -/
def right_face (lm : List Landmark) : Landmark := lm.getD 16 (0, 0)

/-- landmarks_np[30], the nose tip. -/
def nose_tip (lm : List Landmark) : Landmark := lm.getD 30 (0, 0)

/-- distance_to_left = np.linalg.norm(nose_tip - left_face). -/
noncomputable def distance_to_left (lm : List Landmark) : ℝ :=
  euclid (nose_tip lm) (left_face lm)

/-- distance_to_right = np.linalg.norm(nose_tip - right_face). -/
noncomputable def distance_to_right (lm : List Landmark) : ℝ :=
  euclid (nose_tip lm) (right_face lm)

/-- face_width = np.linalg.norm(right_face - left_face). -/
noncomputable def face_width (lm : List Landmark) : ℝ :=
  euclid (right_face lm) (left_face lm)

/-- relative_pos = distance_to_left / (distance_to_left + distance_to_right). -/
noncomputable def relative_pos (lm : List Landmark) : ℝ :=
  distance_to_left lm / (distance_to_left lm + distance_to_right lm)

/-- The response-shaping branch of calculate_face_orientation:
if abs(relative_pos - 0.5) < 0.05 then (relative_pos - 0.5) * 10
else np.sign(relative_pos - 0.5) * pow(abs(relative_pos - 0.5) * 2, 0.8).
np.sign is Real.sign (both map 0 to 0 and carry the sign otherwise). -/
noncomputable def shapeFn (rp : ℝ) : ℝ :=
  if |rp - 0.5| < 0.05 then (rp - 0.5) * 10
  else Real.sign (rp - 0.5) * (|rp - 0.5| * 2) ^ (0.8 : ℝ)

/-- calculate_face_orientation from face1.py: None if fewer than 31 landmarks,
None if face_width < 10, otherwise the shaped relative nose position clamped
to [-1, 1] by max(-1.0, min(1.0, orientation)). -/
noncomputable def calculate_face_orientation (lm : List Landmark) : Option ℝ :=
  if lm.length < 31 then none
  else if face_width lm < 10 then none
  else some (max (-1.0) (min 1.0 (shapeFn (relative_pos lm))))

/-- The Orientation Estimator as worded by the specification (for claim C3):
undefined exactly when the set has fewer than 31 points or the distance
between point 0 and point 16 is below 10; otherwise, with
d = relative_pos - 0.5, it returns d * 10 when abs d < 0.05 and
sign d * (2 * abs d) ^ 0.8 otherwise, clamped to [-1, 1]. -/
noncomputable def orientationSpec (lm : List Landmark) : Option ℝ :=
  if lm.length < 31 ∨ euclid (left_face lm) (right_face lm) < 10 then none
  else
    some (max (-1.0) (min 1.0
      (if |relative_pos lm - 0.5| < 0.05 then (relative_pos lm - 0.5) * 10
       else Real.sign (relative_pos lm - 0.5) *
         (2 * |relative_pos lm - 0.5|) ^ (0.8 : ℝ))))

/-- A concrete landmark family used to evaluate the estimator on explicit
inputs: 31 points, all degenerate except left_face = (0,0) at index 0,
right_face = (100,0) at index 16, and the given nose tip at index 30. -/
def mkLM (nose : Landmark) : List Landmark :=
  List.replicate 16 (0, 0) ++ [(100, 0)] ++ List.replicate 13 (0, 0) ++ [nose]

/-- One abstract camera interaction during calibration sampling or the main
loop: cap.read() may fail (ret == False), may yield a frame in which the
detector finds no face, or may yield a frame whose first detected face has
the given landmark list. -/
inductive Frame where
  | fail : Frame
  | noFace : Frame
  | face (lm : List Landmark) : Frame

/-- The inner sampling loop of calibrate_face_orientation, entered after the
operator confirms the pose:
while center_readings < 10: read a frame; break on read failure; if a face is
detected and its orientation is defined, add it to sum_orientation and
increment center_readings. The abstract frame stream is a list; exhausting it
behaves like a read failure. Returns (center_readings, sum_orientation). -/
noncomputable def sampleLoop : List Frame → ℕ → ℝ → ℕ × ℝ
  | [], r, s => (r, s)
  | f :: rest, r, s =>
    if 10 ≤ r then (r, s)
    else
      match f with
      | Frame.fail => (r, s)
      | Frame.noFace => sampleLoop rest r s
      | Frame.face lm =>
        match calculate_face_orientation lm with
        | some o => sampleLoop rest (r + 1) (s + o)
        | none => sampleLoop rest r s

/-- The post-loop branch of calibrate_face_orientation:
if center_readings > 0, the function returns
center_offset = sum_orientation / center_readings; otherwise it prints
"Calibration failed, couldn't get enough readings." and loops back to await
another confirmation (modelled as none). -/
noncomputable def calibrationAttempt (frames : List Frame) : Option ℝ :=
  if 0 < (sampleLoop frames 0 0).1 then
    some ((sampleLoop frames 0 0).2 / ((sampleLoop frames 0 0).1 : ℝ))
  else none

/-- The defined orientation values of the faces in a frame stream, in order:
exactly the readings the sampling loop accepts. -/
noncomputable def acceptedOrientations (frames : List Frame) : List ℝ :=
  frames.filterMap fun f =>
    match f with
    | Frame.face lm => calculate_face_orientation lm
    | _ => none

/-- apply_moving_average from face1.py. The Python mutates previous_values in
place and returns the average; the model returns (average, new window):
append current_value, pop the head once when the length exceeds window_size,
and return the arithmetic mean of the remaining window. -/
noncomputable def apply_moving_average (current_value : ℝ)
    (previous_values : List ℝ) (window_size : ℕ) : ℝ × List ℝ :=
  let appended := previous_values ++ [current_value]
  let trimmed := if window_size < appended.length then appended.drop 1 else appended
  (trimmed.sum / (trimmed.length : ℝ), trimmed)

/-- Feed a sequence of values through apply_moving_average, threading the
window; the first component is the smoothed value returned for the last
input (0 if there was none). -/
noncomputable def smoothSeq (inputs : List ℝ) (w0 : List ℝ) (ws : ℕ) : ℝ × List ℝ :=
  inputs.foldl (fun acc v => apply_moving_average v acc.2 ws) (0, w0)

/-- The sample-gate policy of main() in face1.py, given the stored
last_orientation_value (None before the first write), the stored
last_write_time, the current final_orientation and the current time:
emit when last_orientation_value is None
or abs(final_orientation - last_orientation_value) > 0.03
or current_time - last_write_time >= 0.5.
Returns (emitted, new last_orientation_value, new last_write_time); the two
stored values are updated exactly when a record is emitted. -/
noncomputable def gateStep (prev : Option ℝ) (lastWrite current now : ℝ) :
    Bool × Option ℝ × ℝ :=
  match prev with
  | none => (true, some current, now)
  | some p =>
    if 0.03 < |current - p| ∨ 0.5 ≤ now - lastWrite then (true, some current, now)
    else (false, some p, lastWrite)

/-- The mutable session state of main() in face1.py. -/
structure Session where
  center_offset : ℝ
  orientation_history : List ℝ
  last_orientation_value : Option ℝ
  last_write_time : ℝ

/-- The 'c'-key branch of main(): center_offset is assigned the value
returned by calibrate_face_orientation; no other session state is touched
(in particular orientation_history is not cleared). -/
def handleCalibrationKey (st : Session) (result : ℝ) : Session :=
  { st with center_offset := result }

/- Serial demultiplexer of capture2.py. Python's built-in int() and float()
are external to the repository; they are modelled on the plain numeric
literals the Arduino wire format carries: an optional sign followed by
digits for int(), an optional sign followed by digits with at most one
decimal point for float(). A parse failure raises ValueError in Python and
is modelled as none. -/

/-- The numeric value of a digit string (caller checks all are digits). -/
def digitsVal (cs : List Char) : ℕ :=
  cs.foldl (fun a c => 10 * a + (c.toNat - 48)) 0

/-- int(s) on an unsigned decimal literal: none unless nonempty and all
digits. -/
def digitsToNat (cs : List Char) : Option ℕ :=
  if cs ≠ [] ∧ cs.all Char.isDigit then some (digitsVal cs) else none

/-- Python int(s) on an optionally signed decimal literal. -/
def parseInt (s : String) : Option ℤ :=
  match s.data with
  | '-' :: rest => (digitsToNat rest).map fun n => -(n : ℤ)
  | '+' :: rest => (digitsToNat rest).map fun n => (n : ℤ)
  | cs => (digitsToNat cs).map fun n => (n : ℤ)

/-- The unsigned part of a Python float literal: digits with at most one
decimal point, at least one digit overall, valued exactly as a rational. -/
def parseDecimal (cs : List Char) : Option ℚ :=
  match cs.splitOn '.' with
  | [ip] => if ip ≠ [] ∧ ip.all Char.isDigit then some (digitsVal ip : ℚ) else none
  | [ip, fp] =>
    if (ip ++ fp) ≠ [] ∧ ip.all Char.isDigit ∧ fp.all Char.isDigit then
      some ((digitsVal ip : ℚ) + (digitsVal fp : ℚ) / (10 : ℚ) ^ fp.length)
    else none
  | _ => none

/-- Python float(s) on an optionally signed decimal literal. -/
def parseFloat (s : String) : Option ℚ :=
  match s.data with
  | '-' :: rest => (parseDecimal rest).map fun q => -q
  | '+' :: rest => parseDecimal rest
  | cs => parseDecimal cs

/-- The two typed record kinds produced by the demultiplexer. The receiver
timestamp is assigned outside the core (get_formatted_timestamp) and is not
part of the parsing logic. -/
inductive SensorRecord where
  | ecg (value : ℤ)
  | imu (accel_x accel_y accel_z gyro_x gyro_y gyro_z : ℚ)
deriving DecidableEq

/-- Python's line.split(','): split on every comma, keeping empty fields
(so "".split(',') is [""]). -/
def splitComma (s : String) : List String :=
  (s.data.splitOn ',').map fun cs => String.mk cs

/-- One iteration of the parsing block in capture2.py's main():
parts = line.split(','); if parts[0] == "ECG" and len(parts) == 2, parse
parts[1] as int; elif parts[0] == "IMU" and len(parts) == 7, parse
parts[1]..parts[6] as floats; any parse failure (ValueError) or unrecognized
tag / arity yields no record and the line is skipped. Indexing parts[0]
never fails since split always returns at least one field. -/
def demuxLine (line : String) : Option SensorRecord :=
  let parts := splitComma line
  if parts.getD 0 "" = "ECG" ∧ parts.length = 2 then
    match parseInt (parts.getD 1 "") with
    | some v => some (SensorRecord.ecg v)
    | none => none
  else if parts.getD 0 "" = "IMU" ∧ parts.length = 7 then
    match parseFloat (parts.getD 1 ""), parseFloat (parts.getD 2 ""),
          parseFloat (parts.getD 3 ""), parseFloat (parts.getD 4 ""),
          parseFloat (parts.getD 5 ""), parseFloat (parts.getD 6 "") with
    | some a1, some a2, some a3, some g1, some g2, some g3 =>
      some (SensorRecord.imu a1 a2 a3 g1 g2 g3)
    | _, _, _, _, _, _ => none
  else none

/-- The whole stream: every line is processed in order; invalid lines are
skipped and processing continues with the next line. -/
def demuxAll (lines : List String) : List SensorRecord :=
  lines.filterMap demuxLine

/- ---------------------------------------------------------------------- -/
/- Helper lemmas about the geometry.                                      -/
/- ---------------------------------------------------------------------- -/

lemma euclid_comm (p q : Landmark) : euclid p q = euclid q p := by
  unfold euclid
  congr 1
  push_cast
  ring

lemma euclid_horiz (a b c : ℤ) : euclid (a, c) (b, c) = |((a - b : ℤ) : ℝ)| := by
  have h0 : ((c - c : ℤ) : ℝ) = 0 := by push_cast; ring
  simp only [euclid, h0]
  rw [zero_pow (by norm_num), add_zero, Real.sqrt_sq_eq_abs]

lemma euclid_triangle_core (x1 y1 x2 y2 : ℝ) :
    Real.sqrt ((x1 + x2) ^ 2 + (y1 + y2) ^ 2) ≤
      Real.sqrt (x1 ^ 2 + y1 ^ 2) + Real.sqrt (x2 ^ 2 + y2 ^ 2) := by
  set A := Real.sqrt (x1 ^ 2 + y1 ^ 2) with hA
  set B := Real.sqrt (x2 ^ 2 + y2 ^ 2) with hB
  have hA0 : 0 ≤ A := Real.sqrt_nonneg _
  have hB0 : 0 ≤ B := Real.sqrt_nonneg _
  have hA2 : A ^ 2 = x1 ^ 2 + y1 ^ 2 := Real.sq_sqrt (by positivity)
  have hB2 : B ^ 2 = x2 ^ 2 + y2 ^ 2 := Real.sq_sqrt (by positivity)
  have hAB : x1 * x2 + y1 * y2 ≤ A * B := by
    rcases le_or_lt (x1 * x2 + y1 * y2) 0 with h | h
    · exact h.trans (by positivity)
    · have h2 : (x1 * x2 + y1 * y2) ^ 2 ≤ (A * B) ^ 2 := by
        rw [mul_pow, hA2, hB2]
        nlinarith [sq_nonneg (x1 * y2 - x2 * y1)]
      exact le_of_pow_le_pow_left₀ two_ne_zero (by positivity) h2
  calc Real.sqrt ((x1 + x2) ^ 2 + (y1 + y2) ^ 2)
      ≤ Real.sqrt ((A + B) ^ 2) := Real.sqrt_le_sqrt (by nlinarith)
    _ = A + B := Real.sqrt_sq (by positivity)

lemma euclid_triangle (a b c : Landmark) :
    euclid a c ≤ euclid a b + euclid b c := by
  have e1 : ((a.1 - c.1 : ℤ) : ℝ) = ((a.1 - b.1 : ℤ) : ℝ) + ((b.1 - c.1 : ℤ) : ℝ) := by
    push_cast; ring
  have e2 : ((a.2 - c.2 : ℤ) : ℝ) = ((a.2 - b.2 : ℤ) : ℝ) + ((b.2 - c.2 : ℤ) : ℝ) := by
    push_cast; ring
  unfold euclid
  rw [e1, e2]
  exact euclid_triangle_core _ _ _ _

lemma mkLM_length (n : Landmark) : (mkLM n).length = 31 := rfl

lemma mkLM_left (n : Landmark) : left_face (mkLM n) = (0, 0) := rfl

lemma mkLM_right (n : Landmark) : right_face (mkLM n) = (100, 0) := rfl

lemma mkLM_nose (n : Landmark) : nose_tip (mkLM n) = n := rfl

lemma mkLM_face_width (n : Landmark) : face_width (mkLM n) = 100 := by
  rw [face_width, mkLM_right, mkLM_left, euclid_horiz]
  norm_num

lemma mkLM_dist_left (a : ℤ) (h0 : 0 ≤ a) :
    distance_to_left (mkLM (a, 0)) = (a : ℝ) := by
  rw [distance_to_left, mkLM_nose, mkLM_left, euclid_horiz]
  rw [sub_zero, abs_of_nonneg (by exact_mod_cast h0)]

lemma mkLM_dist_right (a : ℤ) (h1 : a ≤ 100) :
    distance_to_right (mkLM (a, 0)) = ((100 - a : ℤ) : ℝ) := by
  rw [distance_to_right, mkLM_nose, mkLM_right, euclid_horiz]
  rw [show |((a - 100 : ℤ) : ℝ)| = |(((100 - a) : ℤ) : ℝ)| by push_cast; rw [abs_sub_comm]]
  rw [abs_of_nonneg (by exact_mod_cast sub_nonneg.mpr h1)]

lemma mkLM_relative_pos (a : ℤ) (h0 : 0 ≤ a) (h1 : a ≤ 100) :
    relative_pos (mkLM (a, 0)) = (a : ℝ) / 100 := by
  rw [relative_pos, mkLM_dist_left a h0, mkLM_dist_right a h1]
  have hsum : (a : ℝ) + ((100 - a : ℤ) : ℝ) = 100 := by push_cast; ring
  rw [hsum]

lemma calc_mkLM (a : ℤ) (h0 : 0 ≤ a) (h1 : a ≤ 100) :
    calculate_face_orientation (mkLM (a, 0)) =
      some (max (-1.0) (min 1.0 (shapeFn ((a : ℝ) / 100)))) := by
  rw [calculate_face_orientation, mkLM_face_width, mkLM_relative_pos a h0 h1]
  rw [if_neg (by rw [mkLM_length]; omega), if_neg (by norm_num)]

lemma calc_lm50 : calculate_face_orientation (mkLM (50, 0)) = some 0 := by
  rw [calc_mkLM 50 (by norm_num) (by norm_num), shapeFn]
  rw [if_pos (by norm_num)]
  norm_num

lemma calc_lm53 : calculate_face_orientation (mkLM (53, 0)) = some 0.3 := by
  rw [calc_mkLM 53 (by norm_num) (by norm_num), shapeFn]
  rw [if_pos (by rw [abs_of_nonneg (by norm_num)]; norm_num)]
  rw [show ((53 : ℤ) : ℝ) / 100 - 0.5 = 0.03 by norm_num]
  rw [show (0.03 : ℝ) * 10 = 0.3 by norm_num]
  rw [min_eq_right (by norm_num), max_eq_right (by norm_num)]

lemma calc_lm54 : calculate_face_orientation (mkLM (54, 0)) = some 0.4 := by
  rw [calc_mkLM 54 (by norm_num) (by norm_num), shapeFn]
  rw [if_pos (by rw [abs_of_nonneg (by norm_num)]; norm_num)]
  rw [show ((54 : ℤ) : ℝ) / 100 - 0.5 = 0.04 by norm_num]
  rw [show (0.04 : ℝ) * 10 = 0.4 by norm_num]
  rw [min_eq_right (by norm_num), max_eq_right (by norm_num)]

lemma rpow_point1_lt : ((0.1 : ℝ)) ^ ((0.8 : ℝ)) < 0.4 := by
  by_contra hcon
  push_neg at hcon
  have h5 : ((0.1 : ℝ) ^ ((0.8 : ℝ))) ^ (5 : ℕ) = (0.1 : ℝ) ^ (4 : ℕ) := by
    rw [← Real.rpow_natCast ((0.1 : ℝ) ^ ((0.8 : ℝ))) 5, ← Real.rpow_mul (by norm_num)]
    rw [show (0.8 : ℝ) * ((5 : ℕ) : ℝ) = ((4 : ℕ) : ℝ) by push_cast; norm_num]
    exact Real.rpow_natCast _ 4
  have hle : (0.4 : ℝ) ^ (5 : ℕ) ≤ ((0.1 : ℝ) ^ ((0.8 : ℝ))) ^ (5 : ℕ) :=
    pow_le_pow_left₀ (by norm_num) hcon 5
  rw [h5] at hle
  norm_num at hle

lemma calc_lm55 :
    calculate_face_orientation (mkLM (55, 0)) = some ((0.1 : ℝ) ^ ((0.8 : ℝ))) := by
  rw [calc_mkLM 55 (by norm_num) (by norm_num), shapeFn]
  have hd : ((55 : ℤ) : ℝ) / 100 - 0.5 = 0.05 := by norm_num
  rw [hd]
  rw [if_neg (by rw [abs_of_nonneg (by norm_num)]; norm_num)]
  rw [Real.sign_of_pos (by norm_num), abs_of_nonneg (by norm_num)]
  rw [show (0.05 : ℝ) * 2 = 0.1 by norm_num, one_mul]
  have hub : ((0.1 : ℝ)) ^ ((0.8 : ℝ)) ≤ 1 :=
    Real.rpow_le_one (by norm_num) (by norm_num) (by norm_num)
  have hlb : (0 : ℝ) ≤ (0.1 : ℝ) ^ ((0.8 : ℝ)) := Real.rpow_nonneg (by norm_num) _
  rw [min_eq_right (by linarith : (0.1 : ℝ) ^ ((0.8 : ℝ)) ≤ 1.0)]
  rw [max_eq_right (by linarith : (-1.0 : ℝ) ≤ (0.1 : ℝ) ^ ((0.8 : ℝ)))]

lemma calc_lm100 : calculate_face_orientation (mkLM (100, 0)) = some 1 := by
  rw [calc_mkLM 100 (by norm_num) (by norm_num), shapeFn]
  have hd : ((100 : ℤ) : ℝ) / 100 - 0.5 = 0.5 := by norm_num
  rw [hd]
  rw [if_neg (by rw [abs_of_nonneg (by norm_num)]; norm_num)]
  rw [Real.sign_of_pos (by norm_num), abs_of_nonneg (by norm_num)]
  rw [show (0.5 : ℝ) * 2 = 1 by norm_num, Real.one_rpow, one_mul]
  rw [min_eq_right (by norm_num : (1 : ℝ) ≤ 1.0), max_eq_right (by norm_num)]

/- ---------------------------------------------------------------------- -/
/- Helper lemmas about the calibration sampling loop.                     -/
/- ---------------------------------------------------------------------- -/

lemma sampleLoop_cons (f : Frame) (rest : List Frame) (r : ℕ) (s : ℝ) :
    sampleLoop (f :: rest) r s =
      if 10 ≤ r then (r, s)
      else
        match f with
        | Frame.fail => (r, s)
        | Frame.noFace => sampleLoop rest r s
        | Frame.face lm =>
          match calculate_face_orientation lm with
          | some o => sampleLoop rest (r + 1) (s + o)
          | none => sampleLoop rest r s := rfl

lemma sampleLoop_of_ge (frames : List Frame) (r : ℕ) (s : ℝ) (h : 10 ≤ r) :
    sampleLoop frames r s = (r, s) := by
  cases frames with
  | nil => rfl
  | cons f rest => rw [sampleLoop_cons, if_pos h]

lemma sampleLoop_complete (frames : List Frame) (r : ℕ) (s : ℝ)
    (hfail : Frame.fail ∉ frames) (hr : r < 10)
    (hlen : 10 - r ≤ (acceptedOrientations frames).length) :
    sampleLoop frames r s =
      (10, s + ((acceptedOrientations frames).take (10 - r)).sum) := by
  induction frames generalizing r s with
  | nil =>
    simp only [acceptedOrientations, List.filterMap_nil, List.length_nil] at hlen
    omega
  | cons f rest ih =>
    have hfail1 : Frame.fail ≠ f := fun h => hfail (h ▸ List.mem_cons_self f rest)
    have hfail2 : Frame.fail ∉ rest := fun h => hfail (List.mem_cons_of_mem f h)
    rw [sampleLoop_cons, if_neg (by omega)]
    cases f with
    | fail => exact absurd rfl hfail1
    | noFace =>
      have hacc : acceptedOrientations (Frame.noFace :: rest) = acceptedOrientations rest := by
        simp [acceptedOrientations]
      rw [hacc] at hlen ⊢
      exact ih r s hfail2 hr hlen
    | face lm =>
      cases hcalc : calculate_face_orientation lm with
      | none =>
        have hacc : acceptedOrientations (Frame.face lm :: rest) = acceptedOrientations rest := by
          simp [acceptedOrientations, hcalc]
        rw [hacc] at hlen ⊢
        simpa [hcalc] using ih r s hfail2 hr hlen
      | some o =>
        have hacc : acceptedOrientations (Frame.face lm :: rest) =
            o :: acceptedOrientations rest := by
          simp [acceptedOrientations, hcalc]
        rw [hacc] at hlen ⊢
        simp only [hcalc]
        by_cases hr1 : r + 1 < 10
        · have hlen1 : 10 - (r + 1) ≤ (acceptedOrientations rest).length := by
            simp only [List.length_cons] at hlen; omega
          rw [ih (r + 1) (s + o) hfail2 hr1 hlen1]
          have htake : 10 - r = (10 - (r + 1)) + 1 := by omega
          rw [htake, List.take_succ_cons, List.sum_cons]
          refine Prod.ext rfl ?_
          dsimp only
          ring
        · have hreq : r + 1 = 10 := by omega
          rw [hreq, sampleLoop_of_ge rest 10 (s + o) le_rfl]
          have htake : 10 - r = 1 := by omega
          rw [htake, List.take_succ_cons, List.take_zero, List.sum_cons, List.sum_nil]
          refine Prod.ext rfl ?_
          dsimp only
          ring

/- ---------------------------------------------------------------------- -/
/- More helper lemmas.                                                    -/
/- ---------------------------------------------------------------------- -/

lemma sampleLoop_fail (rest : List Frame) (r : ℕ) (s : ℝ) (hr : r < 10) :
    sampleLoop (Frame.fail :: rest) r s = (r, s) := by
  rw [sampleLoop_cons, if_neg (by omega)]

lemma sampleLoop_face (lm : List Landmark) (o : ℝ) (rest : List Frame)
    (r : ℕ) (s : ℝ) (hr : r < 10) (h : calculate_face_orientation lm = some o) :
    sampleLoop (Frame.face lm :: rest) r s = sampleLoop rest (r + 1) (s + o) := by
  rw [sampleLoop_cons, if_neg (by omega)]
  show (match calculate_face_orientation lm with
        | some o => sampleLoop rest (r + 1) (s + o)
        | none => sampleLoop rest r s) = _
  rw [h]

lemma calc_eq_some (lm : List Landmark) (o : ℝ)
    (h : calculate_face_orientation lm = some o) :
    o = max (-1.0) (min 1.0 (shapeFn (relative_pos lm))) := by
  rw [calculate_face_orientation] at h
  split_ifs at h
  exact (Option.some.inj h).symm

/- ---------------------------------------------------------------------- -/
/- Claim theorems.                                                        -/
/- ---------------------------------------------------------------------- -/

/-- Claim C1 (counterexample): the claim fails on the code. With a frame
stream that yields one face with orientation 0.4 and then a read failure,
the sampling loop stops with a single accepted reading (fewer than 10), yet
the controller does not abort: because the code only treats zero readings as
failure (if center_readings > 0), it returns the partial estimate 0.4 as the
new offset, which differs from the session default 0.0. -/
theorem C1_counterexample :
    (sampleLoop [Frame.face (mkLM (54, 0)), Frame.fail] 0 0).1 = 1 ∧
    calibrationAttempt [Frame.face (mkLM (54, 0)), Frame.fail] = some 0.4 ∧
    (0.4 : ℝ) ≠ 0 := by
  have h1 : sampleLoop [Frame.face (mkLM (54, 0)), Frame.fail] 0 0 = (1, 0.4) := by
    rw [sampleLoop_face _ _ _ _ _ (by norm_num) calc_lm54]
    rw [sampleLoop_fail _ _ _ (by norm_num)]
    norm_num
  refine ⟨by rw [h1], ?_, by norm_num⟩
  rw [calibrationAttempt, h1, if_pos (by norm_num)]
  norm_num

/-- Claim C1 (amended): if the frame source fails before any reading is
accepted, the calibration attempt produces no estimate and signals failure
(the offset is left alone); but if it fails after k accepted readings with
1 ≤ k < 10, the controller returns the partial average sum / k of the
readings collected so far instead of aborting. -/
theorem C1_failure_only_when_no_readings (frames : List Frame) :
    ((sampleLoop frames 0 0).1 = 0 → calibrationAttempt frames = none) ∧
    (0 < (sampleLoop frames 0 0).1 →
      calibrationAttempt frames =
        some ((sampleLoop frames 0 0).2 / ((sampleLoop frames 0 0).1 : ℝ))) := by
  constructor
  · intro h
    rw [calibrationAttempt, if_neg (by omega)]
  · intro h
    rw [calibrationAttempt, if_pos h]

theorem C1_failure_only_when_no_readings_witness :
    calibrationAttempt [] = none :=
  (C1_failure_only_when_no_readings []).1 rfl

/-- Claim C2 (counterexample): the claim fails on the code. The landmark sets
mkLM (54,0) and mkLM (55,0) differ only in nose position, both pass the
preconditions, and their relative_pos values 0.54 < 0.55 both lie in
[0.5, 1.0]; yet the orientation drops from 0.4 to 0.1 ^ 0.8 < 0.4, because
the linear dead-zone branch approaches 0.5 at its edge while the power-law
branch restarts near 0.16: the estimator is not monotone across the
dead-zone boundary. -/
theorem C2_counterexample :
    relative_pos (mkLM (54, 0)) = 0.54 ∧
    relative_pos (mkLM (55, 0)) = 0.55 ∧
    (0.5 : ℝ) ≤ 0.54 ∧ (0.54 : ℝ) < 0.55 ∧ (0.55 : ℝ) ≤ 1 ∧
    calculate_face_orientation (mkLM (54, 0)) = some 0.4 ∧
    calculate_face_orientation (mkLM (55, 0)) = some ((0.1 : ℝ) ^ ((0.8 : ℝ))) ∧
    (0.1 : ℝ) ^ ((0.8 : ℝ)) < 0.4 := by
  refine ⟨?_, ?_, by norm_num, by norm_num, by norm_num, calc_lm54, calc_lm55,
    rpow_point1_lt⟩
  · rw [mkLM_relative_pos 54 (by norm_num) (by norm_num)]
    norm_num
  · rw [mkLM_relative_pos 55 (by norm_num) (by norm_num)]
    norm_num

/-- Claim C2 (amended): the estimator is non-decreasing in relative_pos on
[0.5, 1.0] as long as the two values do not straddle the dead-zone boundary
at relative_pos = 0.55: if both are below 0.55 or both at least 0.55, a
larger relative_pos gives an orientation at least as large. (The
counterexample shows monotonicity fails across the boundary.) -/
theorem C2_monotone_within_branch (lm1 lm2 : List Landmark) (o1 o2 : ℝ)
    (h1 : calculate_face_orientation lm1 = some o1)
    (h2 : calculate_face_orientation lm2 = some o2)
    (hlo : 0.5 ≤ relative_pos lm1)
    (hlt : relative_pos lm1 < relative_pos lm2)
    (hhi : relative_pos lm2 ≤ 1)
    (hbranch : relative_pos lm2 < 0.55 ∨ 0.55 ≤ relative_pos lm1) :
    o1 ≤ o2 := by
  have e1 : o1 = max (-1.0) (min 1.0 (shapeFn (relative_pos lm1))) := calc_eq_some _ _ h1
  have e2 : o2 = max (-1.0) (min 1.0 (shapeFn (relative_pos lm2))) := calc_eq_some _ _ h2
  have hs : shapeFn (relative_pos lm1) ≤ shapeFn (relative_pos lm2) := by
    rcases hbranch with hb | hb
    · rw [shapeFn, if_pos (by rw [abs_of_nonneg (by linarith)]; linarith)]
      rw [shapeFn, if_pos (by rw [abs_of_nonneg (by linarith)]; linarith)]
      linarith
    · rw [shapeFn, if_neg (by rw [abs_of_nonneg (by linarith)]; push_neg; linarith)]
      rw [shapeFn, if_neg (by rw [abs_of_nonneg (by linarith)]; push_neg; linarith)]
      rw [Real.sign_of_pos (by linarith), Real.sign_of_pos (by linarith), one_mul, one_mul]
      rw [abs_of_nonneg (by linarith), abs_of_nonneg (by linarith)]
      exact Real.rpow_le_rpow (by linarith) (by linarith) (by norm_num)
  rw [e1, e2]
  exact max_le_max le_rfl (min_le_min le_rfl hs)

theorem C2_monotone_within_branch_witness :
    calculate_face_orientation (mkLM (53, 0)) = some 0.3 ∧
    calculate_face_orientation (mkLM (54, 0)) = some 0.4 ∧
    (0.3 : ℝ) ≤ 0.4 := by
  refine ⟨calc_lm53, calc_lm54, ?_⟩
  exact C2_monotone_within_branch (mkLM (53, 0)) (mkLM (54, 0)) 0.3 0.4 calc_lm53 calc_lm54
    (by rw [mkLM_relative_pos 53 (by norm_num) (by norm_num)]; norm_num)
    (by rw [mkLM_relative_pos 53 (by norm_num) (by norm_num),
            mkLM_relative_pos 54 (by norm_num) (by norm_num)]; norm_num)
    (by rw [mkLM_relative_pos 54 (by norm_num) (by norm_num)]; norm_num)
    (Or.inl (by rw [mkLM_relative_pos 54 (by norm_num) (by norm_num)]; norm_num))

/-- Claim C3: the estimator agrees everywhere with the specification formula
(orientationSpec): undefined exactly when there are fewer than 31 points or
the distance between point 0 and point 16 is below 10; otherwise, with
d = relative_pos - 0.5, the result is d * 10 when abs d < 0.05 and
sign d * (2 * abs d) ^ 0.8 otherwise, clamped to [-1, 1]; and it returns 0
when relative_pos is exactly 0.5. The model is a pure function of the
landmark list, matching the purity assertion. -/
theorem C3_estimator_matches_spec (lm : List Landmark) :
    calculate_face_orientation lm = orientationSpec lm ∧
    (31 ≤ lm.length → 10 ≤ face_width lm → relative_pos lm = 0.5 →
      calculate_face_orientation lm = some 0) := by
  constructor
  · have hcomm : euclid (left_face lm) (right_face lm) = face_width lm := by
      rw [face_width]
      exact euclid_comm _ _
    rw [calculate_face_orientation, orientationSpec, hcomm, shapeFn,
        mul_comm (2 : ℝ) |relative_pos lm - 0.5|]
    by_cases hl : lm.length < 31
    · rw [if_pos hl, if_pos (Or.inl hl)]
    · by_cases hf : face_width lm < 10
      · rw [if_neg hl, if_pos hf, if_pos (Or.inr hf)]
      · rw [if_neg hl, if_neg hf, if_neg (not_or.mpr ⟨hl, hf⟩)]
  · intro h31 hfw hrp
    rw [calculate_face_orientation, if_neg (by omega), if_neg (not_lt.mpr hfw),
        shapeFn, hrp]
    rw [if_pos (by norm_num)]
    rw [show ((0.5 : ℝ) - 0.5) * 10 = 0 by norm_num]
    rw [min_eq_right (by norm_num), max_eq_right (by norm_num)]

theorem C3_estimator_matches_spec_witness :
    calculate_face_orientation (mkLM (50, 0)) = some 0 ∧
    calculate_face_orientation (mkLM (50, 0)) = orientationSpec (mkLM (50, 0)) := by
  refine ⟨?_, (C3_estimator_matches_spec (mkLM (50, 0))).1⟩
  exact (C3_estimator_matches_spec (mkLM (50, 0))).2
    (by simp [mkLM_length])
    (by rw [mkLM_face_width]; norm_num)
    (by rw [mkLM_relative_pos 50 (by norm_num) (by norm_num)]; norm_num)

/-- Claim C4: whenever the estimator returns a defined value, that value lies
in the closed interval [-1, 1] (the code clamps with max(-1.0, min(1.0, x))). -/
theorem C4_orientation_in_range (lm : List Landmark) (o : ℝ)
    (h : calculate_face_orientation lm = some o) : -1 ≤ o ∧ o ≤ 1 := by
  have e := calc_eq_some lm o h
  have hlb : (-1.0 : ℝ) ≤ max (-1.0) (min 1.0 (shapeFn (relative_pos lm))) :=
    le_max_left _ _
  have hub : max (-1.0 : ℝ) (min 1.0 (shapeFn (relative_pos lm))) ≤ 1.0 :=
    max_le (by norm_num) (min_le_left _ _)
  rw [e]
  constructor <;> linarith

theorem C4_orientation_in_range_witness :
    calculate_face_orientation (mkLM (50, 0)) = some 0 ∧
    (-1 : ℝ) ≤ 0 ∧ (0 : ℝ) ≤ 1 :=
  ⟨calc_lm50, C4_orientation_in_range (mkLM (50, 0)) 0 calc_lm50⟩

/-- Claim C5: during a sampling phase in which the frame source never fails
and at least 10 defined readings are available, the loop counts only frames
with defined orientation, stops after exactly 10 accepted readings, and the
controller returns their average (sum of the first 10 accepted readings
divided by 10); assigning that offset replaces a session's prior
center_offset wholesale. -/
theorem C5_calibration_average (frames : List Frame)
    (hfail : Frame.fail ∉ frames)
    (hlen : 10 ≤ (acceptedOrientations frames).length) :
    (sampleLoop frames 0 0).1 = 10 ∧
    calibrationAttempt frames =
      some (((acceptedOrientations frames).take 10).sum / 10) ∧
    ∀ st : Session,
      (handleCalibrationKey st
        (((acceptedOrientations frames).take 10).sum / 10)).center_offset =
        ((acceptedOrientations frames).take 10).sum / 10 := by
  have h := sampleLoop_complete frames 0 0 hfail (by norm_num) (by simpa using hlen)
  rw [Nat.sub_zero, zero_add] at h
  refine ⟨by rw [h], ?_, fun st => rfl⟩
  rw [calibrationAttempt, h, if_pos (by norm_num)]
  norm_num

theorem C5_calibration_average_witness :
    calibrationAttempt
      [Frame.face (mkLM (100, 0)), Frame.face (mkLM (100, 0)),
       Frame.face (mkLM (100, 0)), Frame.face (mkLM (100, 0)),
       Frame.face (mkLM (100, 0)), Frame.face (mkLM (50, 0)),
       Frame.face (mkLM (50, 0)), Frame.face (mkLM (50, 0)),
       Frame.face (mkLM (50, 0)), Frame.face (mkLM (50, 0))] = some 0.5 := by
  have hacc : acceptedOrientations
      [Frame.face (mkLM (100, 0)), Frame.face (mkLM (100, 0)),
       Frame.face (mkLM (100, 0)), Frame.face (mkLM (100, 0)),
       Frame.face (mkLM (100, 0)), Frame.face (mkLM (50, 0)),
       Frame.face (mkLM (50, 0)), Frame.face (mkLM (50, 0)),
       Frame.face (mkLM (50, 0)), Frame.face (mkLM (50, 0))] =
      [1, 1, 1, 1, 1, 0, 0, 0, 0, 0] := by
    simp [acceptedOrientations, calc_lm100, calc_lm50]
  have h := C5_calibration_average
      [Frame.face (mkLM (100, 0)), Frame.face (mkLM (100, 0)),
       Frame.face (mkLM (100, 0)), Frame.face (mkLM (100, 0)),
       Frame.face (mkLM (100, 0)), Frame.face (mkLM (50, 0)),
       Frame.face (mkLM (50, 0)), Frame.face (mkLM (50, 0)),
       Frame.face (mkLM (50, 0)), Frame.face (mkLM (50, 0))]
      (by simp) (by rw [hacc]; norm_num)
  rw [h.2.1, hacc]
  norm_num

/-- Claim C10: for every landmark set passing the face-width precondition
(face_width at least 10), the triangle inequality gives
face_width ≤ distance_to_left + distance_to_right, so the denominator of
relative_pos is strictly positive and the division never divides by zero. -/
theorem C10_denominator_positive (lm : List Landmark)
    (h : 10 ≤ face_width lm) :
    face_width lm ≤ distance_to_left lm + distance_to_right lm ∧
    0 < distance_to_left lm + distance_to_right lm ∧
    distance_to_left lm + distance_to_right lm ≠ 0 := by
  have htri : face_width lm ≤ distance_to_left lm + distance_to_right lm := by
    have h1 : euclid (right_face lm) (left_face lm) ≤
        euclid (right_face lm) (nose_tip lm) + euclid (nose_tip lm) (left_face lm) :=
      euclid_triangle _ _ _
    rw [euclid_comm (right_face lm) (nose_tip lm)] at h1
    rw [face_width, distance_to_left, distance_to_right]
    linarith
  have hpos : 0 < distance_to_left lm + distance_to_right lm := by linarith
  exact ⟨htri, hpos, hpos.ne'⟩

theorem C10_denominator_positive_witness :
    0 < distance_to_left (mkLM (50, 0)) + distance_to_right (mkLM (50, 0)) :=
  (C10_denominator_positive (mkLM (50, 0)) (by rw [mkLM_face_width]; norm_num)).2.1

/-- Claim C6: the smoother appends the new value, evicts the oldest element
exactly when the window length exceeds the configured size, and returns the
arithmetic mean of the window; on the six-input example with window size 5
and an initially empty window, the final window is [0.4, 0.6, 0.8, 1.0, 1.2]
and the last returned value is 0.8. -/
theorem C6_moving_average :
    (∀ (v : ℝ) (w : List ℝ) (ws : ℕ), (w ++ [v]).length ≤ ws →
      apply_moving_average v w ws =
        ((w ++ [v]).sum / ((w ++ [v]).length : ℝ), w ++ [v])) ∧
    (∀ (v : ℝ) (w : List ℝ) (ws : ℕ), ws < (w ++ [v]).length →
      apply_moving_average v w ws =
        (((w ++ [v]).drop 1).sum / (((w ++ [v]).drop 1).length : ℝ),
          (w ++ [v]).drop 1)) ∧
    smoothSeq [0.2, 0.4, 0.6, 0.8, 1.0, 1.2] [] 5 =
      (0.8, [0.4, 0.6, 0.8, 1.0, 1.2]) := by
  refine ⟨?_, ?_, ?_⟩
  · intro v w ws h
    simp only [apply_moving_average]
    rw [if_neg (by omega)]
  · intro v w ws h
    simp only [apply_moving_average]
    rw [if_pos h]
  · norm_num [smoothSeq, apply_moving_average]

theorem C6_moving_average_witness :
    apply_moving_average 1 [] 5 = (1, [1]) := by
  have h := C6_moving_average.1 1 [] 5 (by norm_num)
  rw [h]
  norm_num

/-- Claim C7: for a processed frame with defined final orientation, the gate
emits a record exactly when no previously logged value exists, or the value
moved by more than 0.03, or at least 0.5 seconds elapsed since the last
write; the stored previous value and last-write time become the emitted
orientation and emission time exactly on emission and are unchanged
otherwise. -/
theorem C7_sample_gate (prev : Option ℝ) (lastWrite current now : ℝ) :
    ((gateStep prev lastWrite current now).1 = true ↔
      prev = none ∨ (∃ p, prev = some p ∧ 0.03 < |current - p|) ∨
        0.5 ≤ now - lastWrite) ∧
    ((gateStep prev lastWrite current now).1 = true →
      (gateStep prev lastWrite current now).2 = (some current, now)) ∧
    ((gateStep prev lastWrite current now).1 = false →
      (gateStep prev lastWrite current now).2 = (prev, lastWrite)) := by
  cases prev with
  | none =>
    refine ⟨?_, fun _ => rfl, fun h => by simp [gateStep] at h⟩
    exact ⟨fun _ => Or.inl rfl, fun _ => rfl⟩
  | some p =>
    simp only [gateStep]
    by_cases hc : 0.03 < |current - p| ∨ 0.5 ≤ now - lastWrite
    · rw [if_pos hc]
      refine ⟨?_, fun _ => rfl, fun hfalse => by simp at hfalse⟩
      constructor
      · intro _
        rcases hc with h1 | h1
        · exact Or.inr (Or.inl ⟨p, rfl, h1⟩)
        · exact Or.inr (Or.inr h1)
      · intro _
        rfl
    · rw [if_neg hc]
      push_neg at hc
      refine ⟨?_, fun htrue => by simp at htrue, fun _ => rfl⟩
      constructor
      · intro h
        exact absurd h (by simp)
      · intro h
        exfalso
        rcases h with h | ⟨q, hq, habs⟩ | h
        · exact Option.noConfusion h
        · injection hq with hpq
          rw [← hpq] at habs
          linarith [hc.1]
        · linarith [hc.2]

theorem C7_sample_gate_witness :
    (gateStep none 0 0 0).1 = true ∧ (gateStep none 0 0 0).2 = (some 0, 0) := by
  have h := C7_sample_gate none 0 0 0
  have h1 : (gateStep (none : Option ℝ) 0 0 0).1 = true := h.1.mpr (Or.inl rfl)
  exact ⟨h1, h.2.1 h1⟩

/-- Claim C9: completing a calibration run mutates only center_offset: the
smoothing window (orientation_history) is not cleared or modified, the gate
state is untouched, and the next smoothed value is computed from the very
same pre-calibration window, so stale values keep influencing the smoothed
output for up to window_size frames. -/
theorem C9_calibration_touches_only_offset (st : Session) (result : ℝ) :
    (handleCalibrationKey st result).orientation_history = st.orientation_history ∧
    (handleCalibrationKey st result).last_orientation_value = st.last_orientation_value ∧
    (handleCalibrationKey st result).last_write_time = st.last_write_time ∧
    (handleCalibrationKey st result).center_offset = result ∧
    ∀ (v : ℝ) (ws : ℕ),
      apply_moving_average v (handleCalibrationKey st result).orientation_history ws =
        apply_moving_average v st.orientation_history ws :=
  ⟨rfl, rfl, rfl, rfl, fun _ _ => rfl⟩

/- ---------------------------------------------------------------------- -/
/- Helper lemmas for the demultiplexer.                                   -/
/- ---------------------------------------------------------------------- -/

lemma parseFloat_0_1 : parseFloat "0.1" = some (1 / 10) := by
  have e : parseFloat "0.1" = some ((digitsVal ['0'] : ℚ) +
      (digitsVal ['1'] : ℚ) / (10 : ℚ) ^ (['1'] : List Char).length) := rfl
  rw [e, show digitsVal ['0'] = 0 by decide, show digitsVal ['1'] = 1 by decide]
  norm_num

lemma parseFloat_0_2 : parseFloat "0.2" = some (2 / 10) := by
  have e : parseFloat "0.2" = some ((digitsVal ['0'] : ℚ) +
      (digitsVal ['2'] : ℚ) / (10 : ℚ) ^ (['2'] : List Char).length) := rfl
  rw [e, show digitsVal ['0'] = 0 by decide, show digitsVal ['2'] = 2 by decide]
  norm_num

lemma parseFloat_0_3 : parseFloat "0.3" = some (3 / 10) := by
  have e : parseFloat "0.3" = some ((digitsVal ['0'] : ℚ) +
      (digitsVal ['3'] : ℚ) / (10 : ℚ) ^ (['3'] : List Char).length) := rfl
  rw [e, show digitsVal ['0'] = 0 by decide, show digitsVal ['3'] = 3 by decide]
  norm_num

lemma parseFloat_0_01 : parseFloat "0.01" = some (1 / 100) := by
  have e : parseFloat "0.01" = some ((digitsVal ['0'] : ℚ) +
      (digitsVal ['0', '1'] : ℚ) / (10 : ℚ) ^ (['0', '1'] : List Char).length) := rfl
  rw [e, show digitsVal ['0'] = 0 by decide, show digitsVal ['0', '1'] = 1 by decide]
  norm_num

lemma parseFloat_0_02 : parseFloat "0.02" = some (2 / 100) := by
  have e : parseFloat "0.02" = some ((digitsVal ['0'] : ℚ) +
      (digitsVal ['0', '2'] : ℚ) / (10 : ℚ) ^ (['0', '2'] : List Char).length) := rfl
  rw [e, show digitsVal ['0'] = 0 by decide, show digitsVal ['0', '2'] = 2 by decide]
  norm_num

lemma parseFloat_0_03 : parseFloat "0.03" = some (3 / 100) := by
  have e : parseFloat "0.03" = some ((digitsVal ['0'] : ℚ) +
      (digitsVal ['0', '3'] : ℚ) / (10 : ℚ) ^ (['0', '3'] : List Char).length) := rfl
  rw [e, show digitsVal ['0'] = 0 by decide, show digitsVal ['0', '3'] = 3 by decide]
  norm_num

/-- Claim C8: the demultiplexer produces an ECGRecord exactly when the
comma-split fields are tag "ECG", exactly 2 fields, and field 1 parses as an
integer; an IMURecord with the six parsed floats in order exactly when the
tag is "IMU" with exactly 7 fields that all parse as floats; every other
line — unknown tag, wrong field count, or parse failure such as "ECG,abc" or
"FOO,1,2" — produces no record, and the stream continues with the next line
either way. -/
theorem C8_demux (line : String) :
    (∀ v : ℤ, demuxLine line = some (SensorRecord.ecg v) ↔
      ((splitComma line).getD 0 "" = "ECG" ∧ (splitComma line).length = 2 ∧
        parseInt ((splitComma line).getD 1 "") = some v)) ∧
    (∀ a1 a2 a3 g1 g2 g3 : ℚ,
      demuxLine line = some (SensorRecord.imu a1 a2 a3 g1 g2 g3) ↔
      ((splitComma line).getD 0 "" = "IMU" ∧ (splitComma line).length = 7 ∧
        parseFloat ((splitComma line).getD 1 "") = some a1 ∧
        parseFloat ((splitComma line).getD 2 "") = some a2 ∧
        parseFloat ((splitComma line).getD 3 "") = some a3 ∧
        parseFloat ((splitComma line).getD 4 "") = some g1 ∧
        parseFloat ((splitComma line).getD 5 "") = some g2 ∧
        parseFloat ((splitComma line).getD 6 "") = some g3)) ∧
    (demuxLine "ECG,abc" = none ∧ demuxLine "FOO,1,2" = none) ∧
    (demuxLine line = none → ∀ rest, demuxAll (line :: rest) = demuxAll rest) ∧
    (∀ r, demuxLine line = some r → ∀ rest,
      demuxAll (line :: rest) = r :: demuxAll rest) := by
  refine ⟨?_, ?_, ⟨by decide, by decide⟩, ?_, ?_⟩
  · intro v
    constructor
    · intro h
      simp only [demuxLine] at h
      split_ifs at h with h1 h2
      · split at h
        · rename_i w heq
          simp only [Option.some.injEq, SensorRecord.ecg.injEq] at h
          exact ⟨h1.1, h1.2, by rw [heq, h]⟩
        · exact Option.noConfusion h
      · split at h <;> simp_all
    · rintro ⟨htag, hlen, hparse⟩
      simp only [demuxLine]
      rw [if_pos ⟨htag, hlen⟩, hparse]
  · intro a1 a2 a3 g1 g2 g3
    constructor
    · intro h
      simp only [demuxLine] at h
      split_ifs at h with h1 h2
      · split at h <;> simp_all
      · split at h
        · rename_i w1 w2 w3 w4 w5 w6 heq1 heq2 heq3 heq4 heq5 heq6
          simp only [Option.some.injEq, SensorRecord.imu.injEq] at h
          obtain ⟨e1, e2, e3, e4, e5, e6⟩ := h
          exact ⟨h2.1, h2.2, by rw [heq1, e1], by rw [heq2, e2], by rw [heq3, e3],
                 by rw [heq4, e4], by rw [heq5, e5], by rw [heq6, e6]⟩
        · exact Option.noConfusion h
    · rintro ⟨htag, hlen, hp1, hp2, hp3, hp4, hp5, hp6⟩
      simp only [demuxLine]
      rw [if_neg (fun hcon => by rw [htag] at hcon; exact absurd hcon.1 (by decide)),
          if_pos ⟨htag, hlen⟩, hp1, hp2, hp3, hp4, hp5, hp6]
  · intro h rest
    simp [demuxAll, h]
  · intro r h rest
    simp [demuxAll, h]

theorem C8_demux_witness :
    demuxLine "ECG,512" = some (SensorRecord.ecg 512) ∧
    demuxLine "IMU,0.1,0.2,0.3,0.01,0.02,0.03" =
      some (SensorRecord.imu (1/10) (2/10) (3/10) (1/100) (2/100) (3/100)) := by
  constructor
  · exact ((C8_demux "ECG,512").1 512).mpr (by decide)
  · apply ((C8_demux "IMU,0.1,0.2,0.3,0.01,0.02,0.03").2.1
      (1/10) (2/10) (3/10) (1/100) (2/100) (3/100)).mpr
    refine ⟨by decide, by decide, ?_, ?_, ?_, ?_, ?_, ?_⟩
    · show parseFloat "0.1" = some (1/10)
      exact parseFloat_0_1
    · show parseFloat "0.2" = some (2/10)
      exact parseFloat_0_2
    · show parseFloat "0.3" = some (3/10)
      exact parseFloat_0_3
    · show parseFloat "0.01" = some (1/100)
      exact parseFloat_0_01
    · show parseFloat "0.02" = some (2/100)
      exact parseFloat_0_02
    · show parseFloat "0.03" = some (3/100)
      exact parseFloat_0_03
